import Mathlib

/-!
Verification of `pytfa/lumpgem/lumpgem.py` (class `LumpGEM`) against its
natural-language specification.

The Python module builds a MILP from a genome-scale metabolic model (GEM):
it partitions the reactions into biomass / core / non-core sets, augments a
model with thermodynamic constraints, creates one binary indicator per
non-core reaction, adds a carbon-uptake constraint per non-core reaction,
forces a minimum growth rate on biomass reactions, and runs a
prepare / gate / convert / optimize sequence.

This file shallowly embeds that module.  Python object mutation (reaction
lower bounds, per-reaction thermo flags) is modelled by explicit maps
`Reaction → ℚ` / `Reaction → Bool` threaded through the construction.
External collaborators (`import_matlab_model`, `load_thermoDB`,
`ThermoModel`) are modelled only as far as the claims need them.
-/

/-- A metabolite: in the source only its identity matters
(`for met in rxn.metabolites: self._mcore.add(met)`). -/
structure Metabolite where
  id : String
deriving DecidableEq

/-- A cobra reaction, as consumed by `LumpGEM`: an identifier, the
metabolites it involves, a lower flux bound, and the thermodynamic
annotation flag `rxn.thermo['computed']`.  Python set/dict membership for
cobra reactions is object identity; structurally distinct reactions model
distinct objects. -/
structure Reaction where
  id : String
  metabolites : List Metabolite
  lower_bound : ℚ
  thermoComputed : Bool
deriving DecidableEq

/-- The caller-supplied GEM: exposes its reaction collection
(`GEM.reactions`). -/
structure GEMModel where
  reactions : List Reaction
deriving DecidableEq

/-- Optimization variables.  `rxn.forward_variable` and
`rxn.reverse_variable` are the flux variables attached to a reaction;
`indicator r` models the fresh `BinaryVariable(name=rxn.id, type='binary')`
created for a non-core reaction `r` (a fresh Python object per call, hence
keyed by the reaction itself; its name is `r.id`). -/
inductive Var where
  | forward (r : Reaction)
  | reverse (r : Reaction)
  | indicator (r : Reaction)
deriving DecidableEq

/-- The optlang name of a variable; `BinaryVariable(name=rxn.id, ...)`
names the indicator after the reaction id. -/
def Var.name : Var → String
  | .forward r => r.id
  | .reverse r => r.id
  | .indicator r => r.id

/-- A linear constraint `Σ coeff·var ≤ ub`, as built by
`tfa_model.problem.Constraint(expr, ub=...)`. -/
structure LinConstraint where
  terms : List (ℚ × Var)
  ub : ℚ
deriving DecidableEq

/-- Value of a constraint's linear expression under an assignment. -/
def LinConstraint.eval (c : LinConstraint) (σ : Var → ℚ) : ℚ :=
  (c.terms.map (fun t => t.1 * σ t.2)).sum

/-- Satisfaction of a constraint under an assignment. -/
def LinConstraint.satisfied (c : LinConstraint) (σ : Var → ℚ) : Prop :=
  c.eval σ ≤ c.ub

instance (c : LinConstraint) (σ : Var → ℚ) : Decidable (c.satisfied σ) := by
  unfold LinConstraint.satisfied; infer_instance

/-- Whether a constraint mentions a variable among its terms. -/
def LinConstraint.mentions (c : LinConstraint) (v : Var) : Prop :=
  v ∈ c.terms.map Prod.snd

instance (c : LinConstraint) (v : Var) : Decidable (c.mentions v) := by
  unfold LinConstraint.mentions; infer_instance

/-! ## Reaction partitioning (`LumpGEM.__init__`, lines 39-54) -/

/-- `self._rBBB = set([rxn for rxn in GEM.reactions if rxn.id in biomass_rxns])`
— a Python set, modelled as a duplicate-free list. -/
def computeRBBB (GEM : GEMModel) (biomass_rxns : List String) : List Reaction :=
  (GEM.reactions.filter (fun rxn => rxn.id ∈ biomass_rxns)).dedup

/-- The nested loop `for subsystem in core_subsystems: for rxn in subsystem:
self._rcore.add(rxn)` — the union of all reactions of all groupings.
No membership check against `GEM.reactions` is performed by the source. -/
def computeRcore (core_subsystems : List (List Reaction)) : List Reaction :=
  (core_subsystems.flatten).dedup

/-- The inner loop `for met in rxn.metabolites: self._mcore.add(met)` —
the union of the metabolites of all grouping reactions. -/
def computeMcore (core_subsystems : List (List Reaction)) : List Metabolite :=
  ((core_subsystems.flatten).flatMap (fun rxn => rxn.metabolites)).dedup

/-- `self._rncore = set([rxn for rxn in GEM.reactions
if not (rxn in self._rcore or rxn in self._rBBB)])` -/
def computeRncore (GEM : GEMModel) (rcore rBBB : List Reaction) : List Reaction :=
  (GEM.reactions.filter (fun rxn => ¬ (rxn ∈ rcore ∨ rxn ∈ rBBB))).dedup

/-! ## External collaborators -/

/-- Which model object a model-typed value is: the caller's GEM object, or
a fresh object parsed from a file path.  Distinct constructors model
distinct Python objects. -/
inductive ModelSource where
  | caller (g : GEMModel)
  | imported (path : String)
deriving DecidableEq

/-- External loader `import_matlab_model` (module `io.base`, out of scope
per the spec): parses a model from a filesystem path and returns a fresh
model object — never the caller's object. -/
def import_matlab_model (path : String) : ModelSource :=
  ModelSource.imported path

/-- Opaque handle to the thermodynamic reference database, produced by the
external loader from a path; its schema is out of scope. -/
structure ThermoDB where
  path : String
deriving DecidableEq

/-- External loader `load_thermoDB` (module `io.base`, out of scope per the
spec). -/
def load_thermoDB (thermo_data_path : String) : ThermoDB :=
  ⟨thermo_data_path⟩

/-- Steps of the finalize-then-solve protocol, recorded in order. -/
inductive TfaStep where
  | prepare
  | thermoGate
  | convert
  | solve
deriving DecidableEq

/-- Phases of the spec's state machine
`Built → Prepared → ThermoGated → Converted → Solved`. -/
inductive TfaPhase where
  | built
  | prepared
  | thermoGated
  | converted
  | solved
deriving DecidableEq

/-- The thermodynamically augmented model (`ThermoModel(thermo_data,
cobra_model)`): carries the database handle, the base model it was built
from, a name, the objective, the extra linear constraints added by
`LumpGEM`, and the protocol phase/history. -/
structure TFAModel where
  thermo_data : ThermoDB
  base : ModelSource
  name : String
  objective : List (Reaction × ℚ)
  constraints : List LinConstraint
  phase : TfaPhase
  history : List TfaStep
deriving DecidableEq

/-- Solver verdicts surfaced verbatim by the external backend. -/
inductive SolverStatus where
  | optimal
  | infeasible
  | unbounded
  | solverFailure
deriving DecidableEq

/-- The result object returned by the solver: a status plus an assignment
of values to variables.  Produced by the external backend. -/
structure Solution where
  status : SolverStatus
  values : Var → ℚ

/-- An out-of-order call in the prepare/gate/convert/solve protocol. -/
structure ProtocolError where
  msg : String
deriving DecidableEq

/-- Modelled from the spec: `ThermoModel.prepare` (module `thermo.tmodel`,
not under the sources verified here) — builds the thermodynamic formalism
structures; must run first, exactly once, on a freshly built model. -/
def TFAModel.prepare (m : TFAModel) : Except ProtocolError TFAModel :=
  if m.phase = TfaPhase.built then
    Except.ok { m with phase := TfaPhase.prepared,
                       history := m.history ++ [TfaStep.prepare] }
  else Except.error ⟨"prepare called out of order"⟩

/-- Modelled from the spec: the ThermoGate transition of the state machine
— recorded when the gate loop runs; a programming error unless the model
has been prepared. -/
def TFAModel.markGated (m : TFAModel) : Except ProtocolError TFAModel :=
  if m.phase = TfaPhase.prepared then
    Except.ok { m with phase := TfaPhase.thermoGated,
                       history := m.history ++ [TfaStep.thermoGate] }
  else Except.error ⟨"thermo gating out of order"⟩

/-- Modelled from the spec: `ThermoModel.convert` (module `thermo.tmodel`,
not under the sources verified here) — finalizes the model into
solver-ready form; calling it before thermo gating is a programming error
that fails fast. -/
def TFAModel.convert (m : TFAModel) : Except ProtocolError TFAModel :=
  if m.phase = TfaPhase.thermoGated then
    Except.ok { m with phase := TfaPhase.converted,
                       history := m.history ++ [TfaStep.convert] }
  else Except.error ⟨"convert called out of order"⟩

/-- Modelled from the spec: `ThermoModel.optimize` (module `thermo.tmodel`,
not under the sources verified here) — the single blocking call to the
external solver backend, passed here as a parameter; calling it before
conversion is a programming error that fails fast. -/
def TFAModel.optimize (solver : TFAModel → Solution) (m : TFAModel) :
    Except ProtocolError (Solution × TFAModel) :=
  if m.phase = TfaPhase.converted then
    Except.ok (solver m, { m with phase := TfaPhase.solved,
                                  history := m.history ++ [TfaStep.solve] })
  else Except.error ⟨"optimize called out of order"⟩

/-! ## `LumpGEM` construction (`__init__` and its helpers) -/

/-- `LumpGEM._apply_thermo_constraints` plus the objective assignment of
the same method: load the database, build `ThermoModel(thermo_data,
cobra_model)`, name it `'Lumped Model'`, and set the objective
`{bbb_rxn: 1.0 for bbb_rxn in self._rBBB}`. -/
def applyThermoConstraints (thermo_data_path : String)
    (cobra_model : ModelSource) (rBBB : List Reaction) : TFAModel :=
  { thermo_data := load_thermoDB thermo_data_path
    base := cobra_model
    name := "Lumped Model"
    objective := rBBB.map (fun bbb_rxn => (bbb_rxn, (1 : ℚ)))
    constraints := []
    phase := TfaPhase.built
    history := [] }

/-- `LumpGEM._generate_binary_variables`: the dict comprehension
`{rxn: BinaryVariable(name=rxn.id, type='binary') for rxn in self._rncore}`
— one fresh binary variable per non-core reaction, keyed by the reaction. -/
def generateBinaryVariables (rncore : List Reaction) : List (Reaction × Var) :=
  rncore.map (fun rxn => (rxn, Var.indicator rxn))

/-- One iteration of the carbon-intake loop of
`LumpGEM._generate_constraints`:
`Constraint(rxn.forward_variable + rxn.reverse_variable +
self._C_uptake * self._bin_vars[rxn], ub=self._C_uptake)`. -/
def carbonConstraint (C_uptake : ℚ) (rxn : Reaction) (y : Var) : LinConstraint :=
  { terms := [((1 : ℚ), Var.forward rxn), ((1 : ℚ), Var.reverse rxn),
              (C_uptake, y)]
    ub := C_uptake }

/-- The whole carbon-intake loop: one constraint per non-core reaction,
each built from that reaction's own indicator `self._bin_vars[rxn]` and
added to the tfa model. -/
def generateCarbonConstraints (C_uptake : ℚ)
    (bin_vars : List (Reaction × Var)) : List LinConstraint :=
  bin_vars.map (fun p => carbonConstraint C_uptake p.1 p.2)

/-- The growth-rate loop of `LumpGEM._generate_constraints`:
`for bio_rxn in self._rBBB: bio_rxn.lower_bound = self._growth_rate`,
as successive updates to the map of current lower bounds. -/
def setGrowthRates (rBBB : List Reaction) (growth_rate : ℚ)
    (lb : Reaction → ℚ) : Reaction → ℚ :=
  rBBB.foldl (fun acc bio_rxn => Function.update acc bio_rxn growth_rate) lb

/-- The gate loop of `LumpGEM.run_optimisation`:
`for ncrxn in self._rncore: ncrxn.thermo['computed'] = False`,
as successive updates to the map of current thermo flags. -/
def gateThermoFlags (rncore : List Reaction)
    (flags : Reaction → Bool) : Reaction → Bool :=
  rncore.foldl (fun acc ncrxn => Function.update acc ncrxn false) flags

/-- The state of a `LumpGEM` instance after `__init__`.  Mutable attributes
of the shared reaction objects (lower bounds, thermo flags) are modelled as
maps from reactions to their current values. -/
structure LumpGEMState where
  GEM : GEMModel
  rBBB : List Reaction
  rcore : List Reaction
  mcore : List Metabolite
  rncore : List Reaction
  C_uptake : ℚ
  growth_rate : ℚ
  solver : String
  cobra_model : ModelSource
  tfa_model : TFAModel
  bin_vars : List (Reaction × Var)
  lowerBounds : Reaction → ℚ
  thermoFlags : Reaction → Bool

/-- The spec's `ConfigurationError`: what a malformed-input failure at
construction time would carry. -/
structure ConfigurationError where
  msg : String
deriving DecidableEq

/-- The body of `LumpGEM.__init__`, translated statement by statement:
partition the reactions, record the parameters, import the cobra model
from the hardcoded path `".."` (the source's `TODO put correct path
here`), build the thermo model from that imported model, generate the
binary variables, and generate the carbon-intake and growth-rate
constraints. -/
def lumpGEMBuild (GEM : GEMModel) (biomass_rxns : List String)
    (core_subsystems : List (List Reaction)) (carbon_uptake growth_rate : ℚ)
    (thermo_data_path : String) : LumpGEMState :=
  let rBBB := computeRBBB GEM biomass_rxns
  let rcore := computeRcore core_subsystems
  let mcore := computeMcore core_subsystems
  let rncore := computeRncore GEM rcore rBBB
  let cobra_model := import_matlab_model ".."
  let tfa_model := applyThermoConstraints thermo_data_path cobra_model rBBB
  let bin_vars := generateBinaryVariables rncore
  { GEM := GEM
    rBBB := rBBB
    rcore := rcore
    mcore := mcore
    rncore := rncore
    C_uptake := carbon_uptake
    growth_rate := growth_rate
    solver := "optlang-cplex"
    cobra_model := cobra_model
    tfa_model := { tfa_model with
      constraints := tfa_model.constraints ++
        generateCarbonConstraints carbon_uptake bin_vars }
    bin_vars := bin_vars
    lowerBounds := setGrowthRates rBBB growth_rate
      (fun rxn => rxn.lower_bound)
    thermoFlags := fun rxn => rxn.thermoComputed }

/-- `LumpGEM.__init__` with the honest codomain of a Python constructor
(it could raise).  The source performs no validation of its inputs and has
no raise statement, so every call returns `.ok` of the built state. -/
def LumpGEM.init (GEM : GEMModel) (biomass_rxns : List String)
    (core_subsystems : List (List Reaction)) (carbon_uptake growth_rate : ℚ)
    (thermo_data_path : String) : Except ConfigurationError LumpGEMState :=
  Except.ok (lumpGEMBuild GEM biomass_rxns core_subsystems carbon_uptake
    growth_rate thermo_data_path)

/-- What a call of `LumpGEM.run_optimisation` produces: the solver's
solution and the instance state after the call. -/
structure RunResult where
  solution : Solution
  final : LumpGEMState

/-- `LumpGEM.run_optimisation`: prepare the tfa model, clear the thermo
flag of every non-core reaction, convert, optimize — in that order, each
once per call.  The external solver backend is a parameter. -/
def run_optimisation (solver : TFAModel → Solution) (s : LumpGEMState) :
    Except ProtocolError RunResult := do
  let m ← s.tfa_model.prepare
  let flags := gateThermoFlags s.rncore s.thermoFlags
  let m ← m.markGated
  let m ← m.convert
  let (sol, m) ← TFAModel.optimize solver m
  Except.ok ⟨sol, { s with tfa_model := m, thermoFlags := flags }⟩

/-! ## Concrete instances

The spec's end-to-end scenario: a model with reactions `R1` (core),
`R2` (non-core), `B1` (biomass), `carbon_uptake = 10`,
`growth_rate = 1/10`; and a variant exhibiting a biomass/core overlap and
a grouping reaction absent from the model. -/

/-- A metabolite shared by the toy reactions. -/
def metM1 : Metabolite := ⟨"m1"⟩

/-- Toy core reaction. -/
def rxnR1 : Reaction := ⟨"R1", [metM1], 0, true⟩

/-- Toy non-core reaction. -/
def rxnR2 : Reaction := ⟨"R2", [metM1], 0, true⟩

/-- Toy biomass reaction. -/
def rxnB1 : Reaction := ⟨"B1", [metM1], 0, true⟩

/-- A reaction that appears in a core-subsystem grouping but not in the
model's reaction collection. -/
def rxnX : Reaction := ⟨"X", [], 0, true⟩

/-- The spec's three-reaction toy model. -/
def toyGEM : GEMModel := ⟨[rxnR1, rxnR2, rxnB1]⟩

/-- `LumpGEM` built on the toy model with `R1` core and `B1` biomass. -/
def toyState : LumpGEMState :=
  lumpGEMBuild toyGEM ["B1"] [[rxnR1]] 10 (1/10) "data.thermodb"

/-- A two-reaction model for the overlap scenario. -/
def overlapGEM : GEMModel := ⟨[rxnR1, rxnB1]⟩

/-- `LumpGEM` built with `B1` both named as biomass and listed in the core
subsystem grouping, which also lists `rxnX`, a reaction the model does not
contain. -/
def overlapState : LumpGEMState :=
  lumpGEMBuild overlapGEM ["B1"] [[rxnR1, rxnB1, rxnX]] 10 (1/10) "data.thermodb"

/-- A trivial external solver backend, for exercising the protocol. -/
def solver0 : TFAModel → Solution :=
  fun _ => ⟨SolverStatus.optimal, fun _ => 0⟩

/-! ## Shared lemmas -/

/-- Evaluating a fold of pointwise updates: the result holds the written
value on every key of the list and the original value elsewhere. -/
theorem foldl_update_eval {α β : Type} [DecidableEq α] (l : List α) (v : β)
    (f : α → β) (x : α) :
    (l.foldl (fun acc r => Function.update acc r v) f) x =
      if x ∈ l then v else f x := by
  induction l generalizing f with
  | nil => simp
  | cons a t ih =>
    rw [List.foldl_cons, ih]
    rcases Decidable.em (x ∈ t) with h1 | h1
    · simp [h1]
    · rcases Decidable.em (x = a) with h2 | h2
      · subst h2
        simp [h1, Function.update_apply]
      · simp [h1, h2, Function.update_apply]

/-- Filtering the image of a duplicate-free list by a predicate that
selects exactly the image of one member yields that single image. -/
theorem filter_map_eq_singleton {α β : Type} [DecidableEq α]
    (l : List α) (hl : l.Nodup) (f : α → β) (r : α) (hr : r ∈ l)
    (p : β → Bool) (hp : ∀ a, p (f a) = decide (a = r)) :
    (l.map f).filter p = [f r] := by
  induction l with
  | nil => cases hr
  | cons a t ih =>
    rw [List.map_cons, List.filter_cons]
    rcases List.mem_cons.mp hr with h | h
    · subst h
      have hre : r ∉ t := (List.nodup_cons.mp hl).1
      have : (t.map f).filter p = [] := by
        apply List.filter_eq_nil_iff.mpr
        intro b hb
        rcases List.mem_map.mp hb with ⟨x, hx, rfl⟩
        have hxr : x ≠ r := fun he => hre (he ▸ hx)
        simp [hp x, hxr]
      simp [hp r, this]
    · have har : a ≠ r := by
        intro he
        exact (List.nodup_cons.mp hl).1 (he ▸ h)
      rw [ih (List.nodup_cons.mp hl).2 h]
      simp [hp a, har]

/-- In a duplicate-free list, a member occurs exactly once. -/
theorem nodup_count_eq_one {α : Type} [DecidableEq α] (l : List α)
    (hl : l.Nodup) (a : α) (ha : a ∈ l) : l.count a = 1 := by
  induction l with
  | nil => cases ha
  | cons b t ih =>
    rcases List.mem_cons.mp ha with h | h
    · subst h
      have : t.count a = 0 := List.count_eq_zero.mpr (List.nodup_cons.mp hl).1
      simp [List.count_cons, this]
    · have hba : b ≠ a := by
        intro he
        exact (List.nodup_cons.mp hl).1 (he ▸ h)
      rw [List.count_cons]
      rw [ih (List.nodup_cons.mp hl).2 h]
      simp [hba]

/-- Membership in the non-core set: model reactions outside core and
biomass. -/
theorem mem_computeRncore (GEM : GEMModel) (rcore rBBB : List Reaction)
    (r : Reaction) :
    r ∈ computeRncore GEM rcore rBBB ↔
      r ∈ GEM.reactions ∧ r ∉ rcore ∧ r ∉ rBBB := by
  simp [computeRncore, List.mem_filter, not_or]

/-- Membership in the core set: reactions of some grouping. -/
theorem mem_computeRcore (core_subsystems : List (List Reaction))
    (r : Reaction) :
    r ∈ computeRcore core_subsystems ↔
      ∃ sub ∈ core_subsystems, r ∈ sub := by
  simp [computeRcore, List.mem_flatten]

/-- Membership in the core-metabolite set. -/
theorem mem_computeMcore (core_subsystems : List (List Reaction))
    (m : Metabolite) :
    m ∈ computeMcore core_subsystems ↔
      ∃ sub ∈ core_subsystems, ∃ rxn ∈ sub, m ∈ rxn.metabolites := by
  simp [computeMcore, List.mem_flatten, List.mem_flatMap]
  tauto

/-- Membership in the biomass set: model reactions whose id is listed. -/
theorem mem_computeRBBB (GEM : GEMModel) (biomass_rxns : List String)
    (r : Reaction) :
    r ∈ computeRBBB GEM biomass_rxns ↔
      r ∈ GEM.reactions ∧ r.id ∈ biomass_rxns := by
  simp [computeRBBB, List.mem_filter]

/-- The non-core set of a built state, unfolded. -/
theorem lumpGEMBuild_rncore (GEM : GEMModel) (biomass_rxns : List String)
    (core_subsystems : List (List Reaction)) (carbon_uptake growth_rate : ℚ)
    (thermo_data_path : String) :
    (lumpGEMBuild GEM biomass_rxns core_subsystems carbon_uptake growth_rate
        thermo_data_path).rncore =
      computeRncore GEM (computeRcore core_subsystems)
        (computeRBBB GEM biomass_rxns) := rfl

/-- The constraints of a built state, unfolded: exactly the carbon-intake
constraints of the non-core reactions. -/
theorem lumpGEMBuild_constraints (GEM : GEMModel) (biomass_rxns : List String)
    (core_subsystems : List (List Reaction)) (carbon_uptake growth_rate : ℚ)
    (thermo_data_path : String) :
    (lumpGEMBuild GEM biomass_rxns core_subsystems carbon_uptake growth_rate
        thermo_data_path).tfa_model.constraints =
      (computeRncore GEM (computeRcore core_subsystems)
          (computeRBBB GEM biomass_rxns)).map
        (fun rxn => carbonConstraint carbon_uptake rxn (Var.indicator rxn)) := by
  simp [lumpGEMBuild, applyThermoConstraints, generateCarbonConstraints,
    generateBinaryVariables, List.map_map, Function.comp]

/-- The lower-bound map of a built state, unfolded. -/
theorem lumpGEMBuild_lowerBounds (GEM : GEMModel) (biomass_rxns : List String)
    (core_subsystems : List (List Reaction)) (carbon_uptake growth_rate : ℚ)
    (thermo_data_path : String) :
    (lumpGEMBuild GEM biomass_rxns core_subsystems carbon_uptake growth_rate
        thermo_data_path).lowerBounds =
      setGrowthRates (computeRBBB GEM biomass_rxns) growth_rate
        (fun rxn => rxn.lower_bound) := rfl

/-- The binary-variable table of a built state, unfolded. -/
theorem lumpGEMBuild_bin_vars (GEM : GEMModel) (biomass_rxns : List String)
    (core_subsystems : List (List Reaction)) (carbon_uptake growth_rate : ℚ)
    (thermo_data_path : String) :
    (lumpGEMBuild GEM biomass_rxns core_subsystems carbon_uptake growth_rate
        thermo_data_path).bin_vars =
      (computeRncore GEM (computeRcore core_subsystems)
          (computeRBBB GEM biomass_rxns)).map
        (fun rxn => (rxn, Var.indicator rxn)) := rfl

/-- The biomass set of a built state, unfolded. -/
theorem lumpGEMBuild_rBBB (GEM : GEMModel) (biomass_rxns : List String)
    (core_subsystems : List (List Reaction)) (carbon_uptake growth_rate : ℚ)
    (thermo_data_path : String) :
    (lumpGEMBuild GEM biomass_rxns core_subsystems carbon_uptake growth_rate
        thermo_data_path).rBBB = computeRBBB GEM biomass_rxns := rfl

/-- The core set of a built state, unfolded. -/
theorem lumpGEMBuild_rcore (GEM : GEMModel) (biomass_rxns : List String)
    (core_subsystems : List (List Reaction)) (carbon_uptake growth_rate : ℚ)
    (thermo_data_path : String) :
    (lumpGEMBuild GEM biomass_rxns core_subsystems carbon_uptake growth_rate
        thermo_data_path).rcore = computeRcore core_subsystems := rfl

/-- The core-metabolite set of a built state, unfolded. -/
theorem lumpGEMBuild_mcore (GEM : GEMModel) (biomass_rxns : List String)
    (core_subsystems : List (List Reaction)) (carbon_uptake growth_rate : ℚ)
    (thermo_data_path : String) :
    (lumpGEMBuild GEM biomass_rxns core_subsystems carbon_uptake growth_rate
        thermo_data_path).mcore = computeMcore core_subsystems := rfl

/-- Running the whole protocol from a freshly built model: the explicit
result of `run_optimisation`, with the four steps recorded in order and
the gated thermo flags. -/
theorem run_optimisation_eq (solver : TFAModel → Solution) (s : LumpGEMState)
    (h : s.tfa_model.phase = TfaPhase.built) :
    run_optimisation solver s = Except.ok
      { solution := solver
          { s.tfa_model with
              phase := TfaPhase.converted,
              history := s.tfa_model.history ++
                [TfaStep.prepare, TfaStep.thermoGate, TfaStep.convert] },
        final :=
          { s with
              tfa_model :=
                { s.tfa_model with
                    phase := TfaPhase.solved,
                    history := s.tfa_model.history ++
                      [TfaStep.prepare, TfaStep.thermoGate, TfaStep.convert,
                        TfaStep.solve] },
              thermoFlags := gateThermoFlags s.rncore s.thermoFlags } } := by
  simp [run_optimisation, TFAModel.prepare, TFAModel.markGated, TFAModel.convert,
    TFAModel.optimize, h, Bind.bind, Except.bind]

/-! ## The claims -/

/-- C1: for every non-core reaction `r`, construction adds the linear
constraint `f(r) + b(r) + C_uptake·y(r) ≤ C_uptake` over `r`'s forward
flux, reverse flux and binary indicator; under any assignment, fixing
`y(r) = 1` makes the constraint equivalent to `f(r) + b(r) ≤ 0`, and
fixing `y(r) = 0` makes it equivalent to `f(r) + b(r) ≤ C_uptake`. -/
theorem claim_C1_carbon_uptake_constraint (GEM : GEMModel)
    (biomass_rxns : List String) (core_subsystems : List (List Reaction))
    (carbon_uptake growth_rate : ℚ) (thermo_data_path : String) (r : Reaction)
    (hr : r ∈ (lumpGEMBuild GEM biomass_rxns core_subsystems carbon_uptake
        growth_rate thermo_data_path).rncore) (σ : Var → ℚ) :
    carbonConstraint carbon_uptake r (Var.indicator r) ∈
      (lumpGEMBuild GEM biomass_rxns core_subsystems carbon_uptake growth_rate
        thermo_data_path).tfa_model.constraints
    ∧ (σ (Var.indicator r) = 1 →
        ((carbonConstraint carbon_uptake r (Var.indicator r)).satisfied σ ↔
          σ (Var.forward r) + σ (Var.reverse r) ≤ 0))
    ∧ (σ (Var.indicator r) = 0 →
        ((carbonConstraint carbon_uptake r (Var.indicator r)).satisfied σ ↔
          σ (Var.forward r) + σ (Var.reverse r) ≤ carbon_uptake)) := by
  rw [lumpGEMBuild_rncore] at hr
  refine ⟨?_, ?_, ?_⟩
  · rw [lumpGEMBuild_constraints]
    exact List.mem_map.mpr ⟨r, hr, rfl⟩
  · intro hy
    simp only [LinConstraint.satisfied, LinConstraint.eval, carbonConstraint,
      List.map_cons, List.map_nil, List.sum_cons, List.sum_nil, hy]
    constructor <;> intro hle <;> linarith
  · intro hy
    simp only [LinConstraint.satisfied, LinConstraint.eval, carbonConstraint,
      List.map_cons, List.map_nil, List.sum_cons, List.sum_nil, hy]
    constructor <;> intro hle <;> linarith

/-- Witness for C1: on the toy model, `R2` is non-core and the theorem
applies with the all-zero assignment. -/
theorem claim_C1_carbon_uptake_constraint_witness :
    rxnR2 ∈ toyState.rncore ∧
    (carbonConstraint 10 rxnR2 (Var.indicator rxnR2) ∈
        toyState.tfa_model.constraints
     ∧ ((fun _ => (0 : ℚ)) (Var.indicator rxnR2) = 1 →
         ((carbonConstraint 10 rxnR2 (Var.indicator rxnR2)).satisfied
             (fun _ => (0 : ℚ)) ↔
           (fun _ => (0 : ℚ)) (Var.forward rxnR2) +
             (fun _ => (0 : ℚ)) (Var.reverse rxnR2) ≤ 0))
     ∧ ((fun _ => (0 : ℚ)) (Var.indicator rxnR2) = 0 →
         ((carbonConstraint 10 rxnR2 (Var.indicator rxnR2)).satisfied
             (fun _ => (0 : ℚ)) ↔
           (fun _ => (0 : ℚ)) (Var.forward rxnR2) +
             (fun _ => (0 : ℚ)) (Var.reverse rxnR2) ≤ 10))) :=
  ⟨by decide, claim_C1_carbon_uptake_constraint toyGEM ["B1"] [[rxnR1]] 10
    (1/10) "data.thermodb" rxnR2 (by decide) (fun _ => (0 : ℚ))⟩

/-- C2 counterexample: with `B1` both named in the biomass identifiers and
listed in the core grouping, and `rxnX` listed in the grouping but absent
from the model, the three partition sets neither union to the model's
reaction collection nor are pairwise disjoint. -/
theorem claim_C2_partition_cover_counterexample :
    ¬ ((overlapState.rBBB.toFinset ∪ overlapState.rcore.toFinset ∪
          overlapState.rncore.toFinset = overlapState.GEM.reactions.toFinset)
       ∧ (∀ r ∈ overlapState.rBBB, r ∉ overlapState.rcore)
       ∧ (∀ r ∈ overlapState.rBBB, r ∉ overlapState.rncore)
       ∧ (∀ r ∈ overlapState.rcore, r ∉ overlapState.rncore)) := by decide

/-- C2 (amended): no model reaction is omitted — every reaction of the
input model lands in at least one of the three sets — and the non-core set
is disjoint from the other two; but a reaction may lie in both the biomass
and the core set, and the union may strictly exceed the model's reactions
when a core grouping lists a reaction the model does not contain. -/
theorem claim_C2_partition_covers_model (GEM : GEMModel)
    (biomass_rxns : List String) (core_subsystems : List (List Reaction))
    (carbon_uptake growth_rate : ℚ) (thermo_data_path : String) :
    (∀ r ∈ GEM.reactions,
        r ∈ (lumpGEMBuild GEM biomass_rxns core_subsystems carbon_uptake
              growth_rate thermo_data_path).rBBB ∨
        r ∈ (lumpGEMBuild GEM biomass_rxns core_subsystems carbon_uptake
              growth_rate thermo_data_path).rcore ∨
        r ∈ (lumpGEMBuild GEM biomass_rxns core_subsystems carbon_uptake
              growth_rate thermo_data_path).rncore)
    ∧ (∀ r ∈ (lumpGEMBuild GEM biomass_rxns core_subsystems carbon_uptake
            growth_rate thermo_data_path).rncore,
        r ∉ (lumpGEMBuild GEM biomass_rxns core_subsystems carbon_uptake
              growth_rate thermo_data_path).rcore ∧
        r ∉ (lumpGEMBuild GEM biomass_rxns core_subsystems carbon_uptake
              growth_rate thermo_data_path).rBBB) := by
  rw [lumpGEMBuild_rBBB, lumpGEMBuild_rcore, lumpGEMBuild_rncore]
  constructor
  · intro r hrGEM
    rcases Decidable.em (r ∈ computeRcore core_subsystems) with hc | hc
    · exact Or.inr (Or.inl hc)
    · rcases Decidable.em (r ∈ computeRBBB GEM biomass_rxns) with hb | hb
      · exact Or.inl hb
      · exact Or.inr (Or.inr ((mem_computeRncore GEM _ _ r).mpr
          ⟨hrGEM, hc, hb⟩))
  · intro r hr
    have h := (mem_computeRncore GEM _ _ r).mp hr
    exact ⟨h.2.1, h.2.2⟩

/-- Witness for C2 (amended): `R1` is a model reaction of the overlap
scenario and lands in one of the three sets. -/
theorem claim_C2_partition_covers_model_witness :
    rxnR1 ∈ overlapGEM.reactions ∧
    (rxnR1 ∈ overlapState.rBBB ∨ rxnR1 ∈ overlapState.rcore ∨
      rxnR1 ∈ overlapState.rncore) :=
  ⟨by decide, (claim_C2_partition_covers_model overlapGEM ["B1"]
    [[rxnR1, rxnB1, rxnX]] 10 (1/10) "data.thermodb").1 rxnR1 (by decide)⟩

/-- C3: evaluation at the failing input — `B1` is named in the biomass
identifiers and listed in the core grouping; the construction places it in
both `rBBB` and `rcore`, so no biomass-over-core precedence is applied. -/
theorem claim_C3_no_biomass_precedence :
    rxnB1 ∈ overlapState.rBBB ∧ rxnB1 ∈ overlapState.rcore := by decide

/-- C4: the base model handed to `ThermoModel` is the model freshly
imported from the hardcoded path `".."`, and is never the model object
the caller passed in: the `GEM` argument does not reach the thermodynamic
engine. -/
theorem claim_C4_tfa_base_ignores_caller_model (GEM : GEMModel)
    (biomass_rxns : List String) (core_subsystems : List (List Reaction))
    (carbon_uptake growth_rate : ℚ) (thermo_data_path : String) :
    (lumpGEMBuild GEM biomass_rxns core_subsystems carbon_uptake growth_rate
        thermo_data_path).tfa_model.base = ModelSource.imported ".."
    ∧ (lumpGEMBuild GEM biomass_rxns core_subsystems carbon_uptake growth_rate
        thermo_data_path).tfa_model.base ≠ ModelSource.caller GEM :=
  ⟨rfl, fun hc => ModelSource.noConfusion hc⟩

/-- Witness for C4 at the toy model. -/
theorem claim_C4_tfa_base_ignores_caller_model_witness :
    toyState.tfa_model.base = ModelSource.imported ".." ∧
    toyState.tfa_model.base ≠ ModelSource.caller toyGEM :=
  claim_C4_tfa_base_ignores_caller_model toyGEM ["B1"] [[rxnR1]] 10 (1/10)
    "data.thermodb"

/-- A one-reaction model used for the malformed-configuration scenario. -/
def soloGEM : GEMModel := ⟨[rxnR1]⟩

/-- C9 counterexample: with an empty core-subsystem list and a biomass
identifier that matches no model reaction, construction does not fail — it
returns a built state whose biomass and core sets are empty and whose
non-core set holds the whole model. -/
theorem claim_C9_no_validation_counterexample :
    LumpGEM.init soloGEM ["bogus"] [] 10 (1/10) "data.thermodb"
        = Except.ok (lumpGEMBuild soloGEM ["bogus"] [] 10 (1/10)
            "data.thermodb")
    ∧ (lumpGEMBuild soloGEM ["bogus"] [] 10 (1/10) "data.thermodb").rBBB = []
    ∧ (lumpGEMBuild soloGEM ["bogus"] [] 10 (1/10) "data.thermodb").rcore = []
    ∧ (lumpGEMBuild soloGEM ["bogus"] [] 10 (1/10) "data.thermodb").rncore
        = [rxnR1] :=
  ⟨rfl, by decide, by decide, by decide⟩

/-- C9 (amended): construction never raises — no validation of the
partition inputs is performed; empty biomass or core sets and unknown
reaction identifiers are silently accepted and a model state is produced. -/
theorem claim_C9_construction_never_fails (GEM : GEMModel)
    (biomass_rxns : List String) (core_subsystems : List (List Reaction))
    (carbon_uptake growth_rate : ℚ) (thermo_data_path : String) :
    LumpGEM.init GEM biomass_rxns core_subsystems carbon_uptake growth_rate
        thermo_data_path
      = Except.ok (lumpGEMBuild GEM biomass_rxns core_subsystems carbon_uptake
          growth_rate thermo_data_path) := rfl

/-- C5: from a freshly built model, one `run_optimisation` call performs
Prepare, ThermoGate, Convert, Solve strictly in that order, each exactly
once, and the out-of-order entry points fail fast: convert before the
thermo gate errors, and solve before convert errors. -/
theorem claim_C5_protocol_order (solver : TFAModel → Solution)
    (s : LumpGEMState) (h : s.tfa_model.phase = TfaPhase.built) :
    (∃ res, run_optimisation solver s = Except.ok res ∧
        res.final.tfa_model.history = s.tfa_model.history ++
          [TfaStep.prepare, TfaStep.thermoGate, TfaStep.convert,
            TfaStep.solve] ∧
        res.final.tfa_model.phase = TfaPhase.solved)
    ∧ (∀ m : TFAModel, m.phase ≠ TfaPhase.thermoGated →
        ∃ e, TFAModel.convert m = Except.error e)
    ∧ (∀ m : TFAModel, m.phase ≠ TfaPhase.converted →
        ∃ e, TFAModel.optimize solver m = Except.error e) := by
  refine ⟨⟨_, run_optimisation_eq solver s h, rfl, rfl⟩, ?_, ?_⟩
  · intro m hm
    exact ⟨_, by rw [TFAModel.convert, if_neg hm]⟩
  · intro m hm
    exact ⟨_, by rw [TFAModel.optimize, if_neg hm]⟩

/-- Witness for C5: the toy state is freshly built, and the run with the
trivial backend records the four steps in order. -/
theorem claim_C5_protocol_order_witness :
    toyState.tfa_model.phase = TfaPhase.built ∧
    (∃ res, run_optimisation solver0 toyState = Except.ok res ∧
        res.final.tfa_model.history = toyState.tfa_model.history ++
          [TfaStep.prepare, TfaStep.thermoGate, TfaStep.convert,
            TfaStep.solve] ∧
        res.final.tfa_model.phase = TfaPhase.solved) :=
  ⟨rfl, (claim_C5_protocol_order solver0 toyState rfl).1⟩

/-- C6: after the thermo-gating step of a `run_optimisation` call, every
non-core reaction's thermodynamic-computation flag is cleared, and the
flag of every reaction outside the non-core set is unchanged. -/
theorem claim_C6_thermo_gate_flags (solver : TFAModel → Solution)
    (s : LumpGEMState) (h : s.tfa_model.phase = TfaPhase.built) :
    ∃ res, run_optimisation solver s = Except.ok res ∧
      (∀ r ∈ s.rncore, res.final.thermoFlags r = false) ∧
      (∀ r : Reaction, r ∉ s.rncore →
        res.final.thermoFlags r = s.thermoFlags r) := by
  refine ⟨_, run_optimisation_eq solver s h, ?_, ?_⟩
  · intro r hr
    show gateThermoFlags s.rncore s.thermoFlags r = false
    rw [gateThermoFlags, foldl_update_eval]
    simp [hr]
  · intro r hr
    show gateThermoFlags s.rncore s.thermoFlags r = s.thermoFlags r
    rw [gateThermoFlags, foldl_update_eval]
    simp [hr]

/-- Witness for C6: on the toy state, the run clears the flag of the
non-core `R2` and leaves the core `R1`'s flag unchanged. -/
theorem claim_C6_thermo_gate_flags_witness :
    toyState.tfa_model.phase = TfaPhase.built ∧
    rxnR2 ∈ toyState.rncore ∧ rxnR1 ∉ toyState.rncore ∧
    (∃ res, run_optimisation solver0 toyState = Except.ok res ∧
      res.final.thermoFlags rxnR2 = false ∧
      res.final.thermoFlags rxnR1 = toyState.thermoFlags rxnR1) := by
  obtain ⟨res, hrun, hnc, hfr⟩ := claim_C6_thermo_gate_flags solver0 toyState rfl
  exact ⟨rfl, by decide, by decide,
    ⟨res, hrun, hnc rxnR2 (by decide), hfr rxnR1 (by decide)⟩⟩

/-- C7: after construction, the lower flux bound of every biomass reaction
equals the caller-supplied growth rate exactly. -/
theorem claim_C7_biomass_lower_bound (GEM : GEMModel)
    (biomass_rxns : List String) (core_subsystems : List (List Reaction))
    (carbon_uptake growth_rate : ℚ) (thermo_data_path : String) (r : Reaction)
    (hr : r ∈ (lumpGEMBuild GEM biomass_rxns core_subsystems carbon_uptake
        growth_rate thermo_data_path).rBBB) :
    (lumpGEMBuild GEM biomass_rxns core_subsystems carbon_uptake growth_rate
        thermo_data_path).lowerBounds r = growth_rate := by
  rw [lumpGEMBuild_rBBB] at hr
  rw [lumpGEMBuild_lowerBounds, setGrowthRates, foldl_update_eval]
  simp [hr]

/-- Witness for C7: on the toy model, `B1` is a biomass reaction and its
lower bound after construction is the supplied growth rate `1/10`. -/
theorem claim_C7_biomass_lower_bound_witness :
    rxnB1 ∈ toyState.rBBB ∧ toyState.lowerBounds rxnB1 = 1/10 :=
  ⟨by decide, claim_C7_biomass_lower_bound toyGEM ["B1"] [[rxnR1]] 10 (1/10)
    "data.thermodb" rxnB1 (by decide)⟩

/-- C8: for every non-core reaction `r`, the binary-variable table holds
exactly one entry keyed by `r`, holding `r`'s own indicator; no other
non-core reaction's entry holds that indicator; and exactly one
carbon-uptake constraint mentions that indicator — the one built for `r`. -/
theorem claim_C8_unique_indicator (GEM : GEMModel)
    (biomass_rxns : List String) (core_subsystems : List (List Reaction))
    (carbon_uptake growth_rate : ℚ) (thermo_data_path : String) (r : Reaction)
    (hr : r ∈ (lumpGEMBuild GEM biomass_rxns core_subsystems carbon_uptake
        growth_rate thermo_data_path).rncore) :
    (lumpGEMBuild GEM biomass_rxns core_subsystems carbon_uptake growth_rate
          thermo_data_path).bin_vars.filter (fun p => decide (p.1 = r))
        = [(r, Var.indicator r)]
    ∧ ((lumpGEMBuild GEM biomass_rxns core_subsystems carbon_uptake
          growth_rate thermo_data_path).bin_vars.map Prod.snd).count
        (Var.indicator r) = 1
    ∧ (lumpGEMBuild GEM biomass_rxns core_subsystems carbon_uptake growth_rate
          thermo_data_path).tfa_model.constraints.filter
        (fun c => decide (c.mentions (Var.indicator r)))
        = [carbonConstraint carbon_uptake r (Var.indicator r)] := by
  rw [lumpGEMBuild_rncore] at hr
  have hn : (computeRncore GEM (computeRcore core_subsystems)
      (computeRBBB GEM biomass_rxns)).Nodup := List.nodup_dedup _
  refine ⟨?_, ?_, ?_⟩
  · rw [lumpGEMBuild_bin_vars]
    exact filter_map_eq_singleton _ hn _ r hr _ (fun a => rfl)
  · rw [lumpGEMBuild_bin_vars, List.map_map]
    have hc : (Prod.snd ∘ fun rxn => (rxn, Var.indicator rxn)) =
        fun rxn : Reaction => Var.indicator rxn := rfl
    rw [hc]
    have hinj : Function.Injective (fun rxn : Reaction => Var.indicator rxn) :=
      fun a b hab => by injection hab
    exact nodup_count_eq_one _ (hn.map hinj) _ (List.mem_map.mpr ⟨r, hr, rfl⟩)
  · rw [lumpGEMBuild_constraints]
    apply filter_map_eq_singleton _ hn _ r hr
    intro a
    rw [decide_eq_decide]
    simp [carbonConstraint, LinConstraint.mentions, eq_comm]

/-- Witness for C8 at the toy model's non-core reaction `R2`. -/
theorem claim_C8_unique_indicator_witness :
    rxnR2 ∈ toyState.rncore ∧
    (toyState.bin_vars.filter (fun p => decide (p.1 = rxnR2))
        = [(rxnR2, Var.indicator rxnR2)]
     ∧ (toyState.bin_vars.map Prod.snd).count (Var.indicator rxnR2) = 1
     ∧ toyState.tfa_model.constraints.filter
        (fun c => decide (c.mentions (Var.indicator rxnR2)))
        = [carbonConstraint 10 rxnR2 (Var.indicator rxnR2)]) :=
  ⟨by decide, claim_C8_unique_indicator toyGEM ["B1"] [[rxnR1]] 10 (1/10)
    "data.thermodb" rxnR2 (by decide)⟩

/-- C10: the core set is exactly the union of the supplied groupings and
the core-metabolite set exactly the union of those reactions' metabolites
(with no check against the model's reaction collection), while the
non-core set is drawn solely from the model's reactions and is disjoint
from both the core and the biomass sets. -/
theorem claim_C10_core_sets_and_disjointness (GEM : GEMModel)
    (biomass_rxns : List String) (core_subsystems : List (List Reaction))
    (carbon_uptake growth_rate : ℚ) (thermo_data_path : String) :
    (∀ r : Reaction,
        r ∈ (lumpGEMBuild GEM biomass_rxns core_subsystems carbon_uptake
              growth_rate thermo_data_path).rcore ↔
          ∃ sub ∈ core_subsystems, r ∈ sub)
    ∧ (∀ m : Metabolite,
        m ∈ (lumpGEMBuild GEM biomass_rxns core_subsystems carbon_uptake
              growth_rate thermo_data_path).mcore ↔
          ∃ sub ∈ core_subsystems, ∃ rxn ∈ sub, m ∈ rxn.metabolites)
    ∧ (∀ r ∈ (lumpGEMBuild GEM biomass_rxns core_subsystems carbon_uptake
            growth_rate thermo_data_path).rncore, r ∈ GEM.reactions)
    ∧ (∀ r ∈ (lumpGEMBuild GEM biomass_rxns core_subsystems carbon_uptake
            growth_rate thermo_data_path).rncore,
        r ∉ (lumpGEMBuild GEM biomass_rxns core_subsystems carbon_uptake
              growth_rate thermo_data_path).rcore ∧
        r ∉ (lumpGEMBuild GEM biomass_rxns core_subsystems carbon_uptake
              growth_rate thermo_data_path).rBBB) := by
  rw [lumpGEMBuild_rcore, lumpGEMBuild_mcore, lumpGEMBuild_rncore,
    lumpGEMBuild_rBBB]
  refine ⟨mem_computeRcore core_subsystems, mem_computeMcore core_subsystems,
    ?_, ?_⟩
  · intro r hr
    exact ((mem_computeRncore GEM _ _ r).mp hr).1
  · intro r hr
    have h := (mem_computeRncore GEM _ _ r).mp hr
    exact ⟨h.2.1, h.2.2⟩

/-- Witness for C10: in the overlap scenario, `rxnX` is in the core set by
virtue of being listed in a grouping although it is not a model reaction,
and the empty non-core set facts hold vacuously at `rxnR1`. -/
theorem claim_C10_core_sets_and_disjointness_witness :
    (rxnX ∈ overlapState.rcore ↔ ∃ sub ∈ [[rxnR1, rxnB1, rxnX]], rxnX ∈ sub)
    ∧ rxnX ∉ overlapGEM.reactions ∧ rxnX ∈ overlapState.rcore :=
  ⟨(claim_C10_core_sets_and_disjointness overlapGEM ["B1"]
      [[rxnR1, rxnB1, rxnX]] 10 (1/10) "data.thermodb").1 rxnX,
    by decide, by decide⟩
